import Mathlib

/-!
# kubectl `hello-kubernetes` and `hello-world`

A shallow embedding of
`staging/src/k8s.io/kubectl/pkg/cmd/hellokubernetes/hello_kubernetes.go` and
`staging/src/k8s.io/kubectl/pkg/cmd/helloworld/hello_world.go`.

Go `error` values are `Option Error` (`none` is `nil`).  Methods that mutate
their receiver return the updated receiver.  The output stream `o.Out` and the
process standard output are the `String` written so far.
-/

set_option autoImplicit false

/-- Go `error` values that occur in the two commands. -/
inductive Error where
  /-- An error made by `fmt.Errorf` or returned by a collaborator, identified by its text. -/
  | msg (text : String)
  /-- The error made by `cmdutil.UsageErrorf(cmd, text)` for the command at `commandPath`. -/
  | usage (commandPath : String) (text : String)
  /-- The error made by `utilerrors.NewAggregate` from one or more errors. -/
  | aggregate (errs : List Error)

/-- The part of `*cobra.Command` the two commands read. -/
structure Command where
  CommandPath : String

/-- An object as the builder yields it in `Unstructured()` mode, reduced to the
fields the two templates read: `.metadata.name`, `.kind` and
`.metadata.creationTimestamp` (absent in a manifest that does not carry it). -/
structure Unstructured where
  name : String
  kind : String
  creationTimestamp : Option String

namespace resource

/-- Go `resource.FilenameOptions`. -/
structure FilenameOptions where
  Filenames : List String
  Kustomize : String
  Recursive : Bool

/-- Go `resource.Info`, reduced to the field the visit callback reads. -/
structure Info where
  Object : Unstructured

end resource

namespace cmdutil

/-- Modelled from the spec: `cmdutil.IsFilenameSliceEmpty` is not among the
sources; section 4.1 describes it as "both the file list and the
directory/kustomize option are empty". -/
def IsFilenameSliceEmpty (filenames : List String) (directory : String) : Bool :=
  filenames.length == 0 && directory == ""

/-- Modelled from the spec: `cmdutil.UsageErrorf` is not among the sources; it
makes the `InvalidUsage` error of section 7 from the command and a message. -/
def UsageErrorf (cmd : Command) (text : String) : Error :=
  Error.usage cmd.CommandPath text

/-- Modelled from the spec: `cmdutil.CheckErr` is not among the sources.
Sections 6 and 7: an error of a step is surfaced immediately and ends the
command with a non-zero exit, before any later step; without an error the
command goes on.  `fatal e` is the command ended by `e`, `next` the rest of the
command. -/
def CheckErr {α : Type} (err : Option Error) (fatal : Error → α) (next : α) : α :=
  match err with
  | some e => fatal e
  | none => next

end cmdutil

namespace utilerrors

/-- Modelled from the spec: `utilerrors.NewAggregate` is not among the sources;
it makes the "aggregate error" of sections 4.2 and 7 from the accumulated
per-item errors, and is `nil` when there are none. -/
def NewAggregate : List Error → Option Error
  | [] => none
  | e :: errs => some (Error.aggregate (e :: errs))

end utilerrors

namespace fmt

/-- Go `%s` applied to a template operand: a string prints as itself, a value
that is absent prints as the nil operand. -/
def formatS : Option String → String
  | some s => s
  | none => "%!s(<nil>)"

/-- Go rendering of an operand that no verb of the format consumed. -/
def formatExtra : Option String → String
  | some s => "string=" ++ s
  | none => "<nil>"

/-- Go `fmt.Sprintf` over the characters of the format, for formats whose only
verb is `%s`: every other character is copied. -/
def doPrintf : List Char → List (Option String) → String
  | [], [] => ""
  | [], a :: rest => "%!(EXTRA " ++ ", ".intercalate ((a :: rest).map formatExtra) ++ ")"
  | '%' :: 's' :: format, a :: rest => formatS a ++ doPrintf format rest
  | '%' :: 's' :: format, [] => "%!s(MISSING)" ++ doPrintf format []
  | c :: format, args => String.singleton c ++ doPrintf format args

/-- Go `fmt.Sprintf(format, args...)`, see `doPrintf`. -/
def Sprintf (format : String) (args : List (Option String)) : String :=
  doPrintf format.data args

/-- Go `fmt.Println(s)` on a standard output that holds `stdout`. -/
def Println (s : String) (stdout : String) : String :=
  stdout ++ s ++ "\n"

end fmt

namespace printers

/-- A field chain of a template action, for the three chains that the templates
of `hello-kubernetes` use. -/
inductive Field where
  /-- The chain `.metadata.name`. -/
  | metadataName
  /-- The chain `.kind`. -/
  | kind
  /-- The chain `.metadata.creationTimestamp`. -/
  | metadataCreationTimestamp

/-- The value of a field chain on an object; `none` when the object does not
carry the field. -/
def Field.eval (obj : Unstructured) : Field → Option String
  | Field.metadataName => some obj.name
  | Field.kind => some obj.kind
  | Field.metadataCreationTimestamp => obj.creationTimestamp

/-- A go-template that is the single action "printf format field ...", as both
templates of `hello-kubernetes` are. -/
structure Template where
  format : String
  fields : List Field

/-- Go `printers.ResourcePrinter`: `PrintObj obj w` returns the error and the
content of the writer after the call. -/
structure ResourcePrinter where
  PrintObj : Unstructured → String → Option Error × String

/-- Modelled from the spec: `printers.NewGoTemplatePrinter` and its `PrintObj`
are not among the sources.  Section 4.4 step 2 and 3: the resource is rendered
through the template, the fields of the record substituted (an unset field by
its absent representation), and the rendered line is written to the output. -/
def NewGoTemplatePrinter (tmpl : Template) : Except Error ResourcePrinter :=
  Except.ok
    { PrintObj := fun obj w =>
        (none, w ++ fmt.Sprintf tmpl.format (tmpl.fields.map (Field.eval obj))) }

end printers

namespace genericclioptions

/-- Go `genericclioptions.Recorder`: `Record obj` returns an error or `nil`.
What a recorder attaches to the object is an annotation, which is not among the
fields of `Unstructured`. -/
structure Recorder where
  Record : Unstructured → Option Error

/-- Go `genericclioptions.NoopRecorder`. -/
def NoopRecorder : Recorder :=
  { Record := fun _ => none }

/-- Go `*genericclioptions.RecordFlags`, by what `ToRecorder()` returns for the
bound flag values. -/
structure RecordFlags where
  ToRecorder : Except Error Recorder

/-- Go `*genericclioptions.PrintFlags`, by what `ToPrinter()` returns for the
bound flag values (the `--output` value among them). -/
structure PrintFlags where
  ToPrinter : Except Error printers.ResourcePrinter

end genericclioptions

namespace klog

/-- One `klog.V(4).Infof(format, err)` call. -/
structure Entry where
  format : String
  err : Error

end klog

namespace resource

/-- What the chained calls on `*resource.Builder` have set. -/
structure Request where
  unstructured : Bool
  continueOnError : Bool
  namespace_ : String
  defaultNamespace : Bool
  enforceNamespace : Bool
  filenameOptions : Option FilenameOptions
  args : List String
  flatten : Bool

/-- The resolution outcome of section 3: an error of the builder as a whole,
and the ordered sequence of resolved records and per-item errors. -/
structure Outcome where
  err : Option Error
  items : List (Except Error Info)

/-- Go `*resource.Builder`: the request built so far, and the resolver (files,
standard input, kustomize directory, remote lookup) that `Do` runs on it. -/
structure Builder where
  request : Request
  resolve : Request → Outcome

/-- Go `Builder.Unstructured`. -/
def Builder.Unstructured (b : Builder) : Builder :=
  { b with request := { b.request with unstructured := true } }

/-- Go `Builder.ContinueOnError`. -/
def Builder.ContinueOnError (b : Builder) : Builder :=
  { b with request := { b.request with continueOnError := true } }

/-- Go `Builder.NamespaceParam`. -/
def Builder.NamespaceParam (b : Builder) (ns : String) : Builder :=
  { b with request := { b.request with namespace_ := ns } }

/-- Go `Builder.DefaultNamespace`. -/
def Builder.DefaultNamespace (b : Builder) : Builder :=
  { b with request := { b.request with defaultNamespace := true } }

/-- Go `Builder.FilenameParam`. -/
def Builder.FilenameParam (b : Builder) (enforceNamespace : Bool)
    (filenameOptions : FilenameOptions) : Builder :=
  { b with request :=
      { b.request with enforceNamespace := enforceNamespace,
                       filenameOptions := some filenameOptions } }

/-- Go `Builder.ResourceTypeOrNameArgs(false, args...)`. -/
def Builder.ResourceTypeOrNameArgs (b : Builder) (args : List String) : Builder :=
  { b with request := { b.request with args := args } }

/-- Go `Builder.Flatten`. -/
def Builder.Flatten (b : Builder) : Builder :=
  { b with request := { b.request with flatten := true } }

/-- Go `*resource.Result`. -/
structure Result where
  err : Option Error
  continueOnError : Bool
  items : List (Except Error Info)

/-- Go `Builder.Do`. -/
def Builder.Do (b : Builder) : Result :=
  { err := (b.resolve b.request).err,
    continueOnError := b.request.continueOnError,
    items := (b.resolve b.request).items }

/-- Go `Result.Err`. -/
def Result.Err (r : Result) : Option Error :=
  r.err

/-- The visit in continue-on-error mode: an item error is accumulated and the
visit goes on; an error of the callback is accumulated and the visit goes on. -/
def visitContinue {σ : Type} (fn : Info → Option Error → σ → Option Error × σ) :
    List (Except Error Info) → List Error → σ → List Error × σ
  | [], errs, s => (errs, s)
  | Except.error e :: rest, errs, s => visitContinue fn rest (errs ++ [e]) s
  | Except.ok info :: rest, errs, s =>
    match fn info none s with
    | (some e, s1) => visitContinue fn rest (errs ++ [e]) s1
    | (none, s1) => visitContinue fn rest errs s1

/-- The visit in fail-fast mode: the first item error or callback error ends it. -/
def visitFailFast {σ : Type} (fn : Info → Option Error → σ → Option Error × σ) :
    List (Except Error Info) → σ → Option Error × σ
  | [], s => (none, s)
  | Except.error e :: _, s => (some e, s)
  | Except.ok info :: rest, s =>
    match fn info none s with
    | (some e, s1) => (some e, s1)
    | (none, s1) => visitFailFast fn rest s1

/-- Modelled from the spec: `Result.Visit` is not among the sources.  Sections
2, 4.2, 4.4 and 7: records are visited in resolution order; per-item errors are
accumulated without aborting the batch and propagate "only in aggregate at
end-of-batch" ("post-loop: if a resolution-level error was encountered,
propagate it"), so the error of the visit is the aggregate of the accumulated
errors, and `nil` when there are none; in fail-fast mode the first error stops
the visit.  The callback is called on the resolved records only, with a `nil`
error.  `s` is the state the callback closes over. -/
def Result.Visit {σ : Type} (r : Result)
    (fn : Info → Option Error → σ → Option Error × σ) (s : σ) : Option Error × σ :=
  match r.err with
  | some err => (some err, s)
  | none =>
    if r.continueOnError then
      match visitContinue fn r.items [] s with
      | (errs, s1) => (utilerrors.NewAggregate errs, s1)
    else
      visitFailFast fn r.items s

end resource

namespace cmdutil

/-- Go `cmdutil.Factory`, by what the two commands ask of it: the result of
`ToRawKubeConfigLoader().Namespace()` and the builder of `NewBuilder()`. -/
structure Factory where
  Namespace : Except Error (String × Bool)
  NewBuilder : resource.Builder

end cmdutil

namespace hellokubernetes

/-- Go `HelloKubernetesOptions`.  `PrintObj obj out` returns the error and the
content of `o.Out` after the call. -/
structure HelloKubernetesOptions where
  PrintFlags : genericclioptions.PrintFlags
  PrintObj : Unstructured → String → Option Error × String
  FilenameOptions : resource.FilenameOptions
  RecordFlags : genericclioptions.RecordFlags
  args : List String
  Recorder : genericclioptions.Recorder
  namespace_ : String
  enforceNamespace : Bool

/-- The template of `Complete` for an empty `args`:
"printf "Hello %s %s\n" .metadata.name .kind". -/
def templateNameKind : printers.Template :=
  { format := "Hello %s %s\n",
    fields := [printers.Field.metadataName, printers.Field.kind] }

/-- The template of `Complete` for a non-empty `args`:
"printf "Hello %s %s %s\n" .metadata.name .kind .metadata.creationTimestamp". -/
def templateNameKindTimestamp : printers.Template :=
  { format := "Hello %s %s %s\n",
    fields := [printers.Field.metadataName, printers.Field.kind,
               printers.Field.metadataCreationTimestamp] }

/-- Go `(*HelloKubernetesOptions).Complete`: the error and the options after the
call.  `o.RecordFlags.Complete(cmd)` reads flag values into the record flags,
whose `ToRecorder` here is already the result for the bound values. -/
def Complete (o : HelloKubernetesOptions) (f : cmdutil.Factory) (_cmd : Command)
    (args : List String) : Option Error × HelloKubernetesOptions :=
  let o := { o with args := args }
  match o.RecordFlags.ToRecorder with
  | Except.error err => (some err, o)
  | Except.ok recorder =>
    let o := { o with Recorder := recorder }
    match f.Namespace with
    | Except.error err => (some err, o)
    | Except.ok (ns, enforceNamespace) =>
      let o := { o with namespace_ := ns, enforceNamespace := enforceNamespace }
      let o := { o with PrintObj := fun obj out =>
        let template :=
          if args.length = 0 then templateNameKind else templateNameKindTimestamp
        match printers.NewGoTemplatePrinter template with
        | Except.error err => (some err, out)
        | Except.ok printer => printer.PrintObj obj out }
      (none, o)

/-- Go `HelloKubernetesOptions.Validate`. -/
def Validate (o : HelloKubernetesOptions) (cmd : Command) (args : List String) :
    Option Error :=
  if args.length = 0 ∧
      cmdutil.IsFilenameSliceEmpty o.FilenameOptions.Filenames o.FilenameOptions.Kustomize
        = true then
    some (cmdutil.UsageErrorf cmd
      "Error: must specify one of -f and -k or type/name as arg\n\n")
  else
    none

/-- What the visit callback of `RunHelloKubernetes` closes over: the counter,
the content of `o.Out`, and the entries logged at verbosity 4. -/
structure VisitState where
  count : Nat
  Out : String
  log : List klog.Entry

/-- The visit callback of `RunHelloKubernetes`. -/
def visitFn (o : HelloKubernetesOptions) (info : resource.Info) (err : Option Error)
    (s : VisitState) : Option Error × VisitState :=
  match err with
  | some err => (some err, s)
  | none =>
    let s :=
      match o.Recorder.Record info.Object with
      | some err =>
        { s with log := s.log ++ [klog.Entry.mk "error recording current command: %v" err] }
      | none => s
    let s := { s with count := s.count + 1 }
    match o.PrintObj info.Object s.Out with
    | (err, out) => (err, { s with Out := out })

/-- What a run leaves: the returned error, the content of `o.Out`, and the
entries logged at verbosity 4. -/
structure RunResult where
  err : Option Error
  Out : String
  log : List klog.Entry

/-- Go `HelloKubernetesOptions.RunHelloKubernetes`, started with `out` in `o.Out`. -/
def RunHelloKubernetes (o : HelloKubernetesOptions) (f : cmdutil.Factory) (_cmd : Command)
    (out : String) : RunResult :=
  match f.Namespace with
  | Except.error err => { err := some err, Out := out, log := [] }
  | Except.ok (cmdNamespace, enforceNamespace) =>
    let r := (((((((f.NewBuilder).Unstructured).ContinueOnError).NamespaceParam
      cmdNamespace).DefaultNamespace).FilenameParam enforceNamespace
      o.FilenameOptions).ResourceTypeOrNameArgs o.args).Flatten.Do
    match r.Err with
    | some err => { err := some err, Out := out, log := [] }
    | none =>
      match r.Visit (visitFn o) { count := 0, Out := out, log := [] } with
      | (some err, s) => { err := some err, Out := s.Out, log := s.log }
      | (none, s) =>
        if s.count = 0 then
          { err := some (Error.msg "no objects passed to print"), Out := s.Out, log := s.log }
        else
          { err := none, Out := s.Out, log := s.log }

/-- The `Run` function of the command made by `NewCmdHelloKubernetes`, on the
options the bound flags have filled.  The error of the result is the error
that ended the command. -/
def Run (o : HelloKubernetesOptions) (f : cmdutil.Factory) (cmd : Command)
    (args : List String) (out : String) : RunResult :=
  match Complete o f cmd args with
  | (err, o1) =>
    cmdutil.CheckErr err (fun e => { err := some e, Out := out, log := [] })
      (cmdutil.CheckErr (Validate o1 cmd args)
        (fun e => { err := some e, Out := out, log := [] })
        (match RunHelloKubernetes o1 f cmd out with
         | r => cmdutil.CheckErr r.err (fun e => { r with err := some e }) r))

end hellokubernetes

namespace helloworld

/-- Go `HelloWorldOptions`. -/
structure HelloWorldOptions where
  PrintFlags : genericclioptions.PrintFlags
  PrintObj : Unstructured → String → Option Error × String
  RecordFlags : genericclioptions.RecordFlags
  Recorder : genericclioptions.Recorder
  namespace_ : String
  enforceNamespace : Bool

/-- Go `(*HelloWorldOptions).Complete`: the error and the options after the call.
`o.RecordFlags.Complete(cmd)` reads flag values into the record flags, whose
`ToRecorder` here is already the result for the bound values. -/
def Complete (o : HelloWorldOptions) (f : cmdutil.Factory) (_cmd : Command)
    (_args : List String) : Option Error × HelloWorldOptions :=
  match o.RecordFlags.ToRecorder with
  | Except.error err => (some err, o)
  | Except.ok recorder =>
    let o := { o with Recorder := recorder }
    match o.PrintFlags.ToPrinter with
    | Except.error err => (some err, o)
    | Except.ok printer =>
      let o := { o with PrintObj := fun obj out => printer.PrintObj obj out }
      match f.Namespace with
      | Except.error err => (some err, o)
      | Except.ok (ns, enforceNamespace) =>
        (none, { o with namespace_ := ns, enforceNamespace := enforceNamespace })

/-- Go `HelloWorldOptions.Validate`. -/
def Validate (_o : HelloWorldOptions) : Option Error :=
  none

/-- Go `HelloWorldOptions.RunHelloWorld`: the error and the standard output
after the call. -/
def RunHelloWorld (_o : HelloWorldOptions) (stdout : String) : Option Error × String :=
  (none, fmt.Println "Hello world" stdout)

/-- The `Run` function of the command made by `NewCmdHelloWorld`, on the options
the bound flags have filled.  Returns the error that ended the command, if
any, and the standard output. -/
def Run (o : HelloWorldOptions) (f : cmdutil.Factory) (cmd : Command)
    (args : List String) (stdout : String) : Option Error × String :=
  match Complete o f cmd args with
  | (err, o1) =>
    cmdutil.CheckErr err (fun e => (some e, stdout))
      (cmdutil.CheckErr (Validate o1) (fun e => (some e, stdout))
        (match RunHelloWorld o1 stdout with
         | (err, stdout1) => cmdutil.CheckErr err (fun e => (some e, stdout1)) (none, stdout1)))

end helloworld

/-! ## Definitions used to state the properties -/

namespace resource

/-- The successfully resolved records of an outcome, in resolution order. -/
def resolved : List (Except Error Info) → List Info
  | [] => []
  | Except.ok info :: rest => info :: resolved rest
  | Except.error _ :: rest => resolved rest

/-- The per-item errors of an outcome, in resolution order. -/
def failed : List (Except Error Info) → List Error
  | [] => []
  | Except.ok _ :: rest => failed rest
  | Except.error e :: rest => e :: failed rest

end resource

namespace hellokubernetes

/-- The resolution outcome that `RunHelloKubernetes` visits: what the resolver
of the factory returns on the request built from the namespace, the filename
options and the positional arguments. -/
def outcome (f : cmdutil.Factory) (cmdNamespace : String) (enforceNamespace : Bool)
    (filenameOptions : resource.FilenameOptions) (args : List String) : resource.Outcome :=
  f.NewBuilder.resolve
    (((((((f.NewBuilder).Unstructured).ContinueOnError).NamespaceParam
      cmdNamespace).DefaultNamespace).FilenameParam enforceNamespace
      filenameOptions).ResourceTypeOrNameArgs args).Flatten.request

/-- The line of section 3 for one record, following the words of the spec:
"Hello name kind" when no positional argument was supplied, and "Hello name
kind creationTimestamp" otherwise, an unset timestamp by its absent
representation. -/
def helloLine (args : List String) (obj : Unstructured) : String :=
  if args = [] then
    "Hello " ++ obj.name ++ " " ++ obj.kind ++ "\n"
  else
    "Hello " ++ obj.name ++ " " ++ obj.kind ++ " " ++ fmt.formatS obj.creationTimestamp ++ "\n"

/-- The text of a sequence of lines: their concatenation, in order. -/
def joinLines : List String → String
  | [] => ""
  | l :: ls => l ++ joinLines ls

/-- The error of section 7 for an empty result. -/
def emptyResult : Error :=
  Error.msg "no objects passed to print"

end hellokubernetes

/-! ## Concrete inputs, after `hello_kubernetes_test.go` -/

namespace testdata

/-- The command of the tests. -/
def cmd : Command :=
  { CommandPath := "kubectl hello-kubernetes" }

/-- The options of the tests before `Complete`, with the `--filename` and
`--kustomize` values the flags have bound; with neither it is the
"HelloKubernetesOptions{}" of `TestExtraArgsFail`.  `PrintObj` is not set. -/
def options (filenames : List String) (kustomize : String) :
    hellokubernetes.HelloKubernetesOptions :=
  { PrintFlags := { ToPrinter := Except.error (Error.msg "no printer") },
    PrintObj := fun _ out => (some (Error.msg "PrintObj is not set"), out),
    FilenameOptions := { Filenames := filenames, Kustomize := kustomize, Recursive := false },
    RecordFlags := { ToRecorder := Except.ok genericclioptions.NoopRecorder },
    args := [],
    Recorder := genericclioptions.NoopRecorder,
    namespace_ := "",
    enforceNamespace := false }

/-- The test factory with namespace "test", whose builder resolves every
request to the outcome `items` without a builder error. -/
def factory (items : List (Except Error resource.Info)) : cmdutil.Factory :=
  { Namespace := Except.ok ("test", false),
    NewBuilder :=
      { request :=
          { unstructured := false, continueOnError := false, namespace_ := "",
            defaultNamespace := false, enforceNamespace := false, filenameOptions := none,
            args := [], flatten := false },
        resolve := fun _ => { err := none, items := items } } }

/-- The record of `redis-master-controller.yaml`. -/
def redisMaster : resource.Info :=
  { Object := { name := "redis-master", kind := "ReplicationController",
                creationTimestamp := none } }

/-- The record of `frontend-service.yaml`. -/
def frontendService : resource.Info :=
  { Object := { name := "frontend", kind := "Service", creationTimestamp := none } }

/-- A record as the remote authority returns it for "pod/hello-node". -/
def helloNode : resource.Info :=
  { Object := { name := "hello-node", kind := "Pod",
                creationTimestamp := some "2020-06-30T18:48:12Z" } }

/-- An error of a collaborator. -/
def notFound : Error :=
  Error.msg "the server could not find the requested resource"

/-- The per-item error of a file that exists and does not parse. -/
def parseError : Error :=
  Error.msg "error parsing malformed.yaml"

/-- A factory whose namespace lookup fails. -/
def brokenFactory : cmdutil.Factory :=
  { factory [] with Namespace := Except.error notFound }

/-- A recorder whose `Record` fails on every object. -/
def failingRecorder : genericclioptions.Recorder :=
  { Record := fun _ => some (Error.msg "cannot record") }

/-- The options of `hello-world` after flag binding, by the results of the
recorder and printer construction. -/
def worldOptions (recorder : Except Error genericclioptions.Recorder)
    (printer : Except Error printers.ResourcePrinter) : helloworld.HelloWorldOptions :=
  { PrintFlags := { ToPrinter := printer },
    PrintObj := fun _ out => (some (Error.msg "PrintObj is not set"), out),
    RecordFlags := { ToRecorder := recorder },
    Recorder := genericclioptions.NoopRecorder,
    namespace_ := "",
    enforceNamespace := false }

/-- A printer, as `--output name` would construct it. -/
def namePrinter : printers.ResourcePrinter :=
  { PrintObj := fun obj out => (none, out ++ obj.kind ++ "/" ++ obj.name ++ "\n") }

end testdata

/-! ## Lemmas -/

namespace fmt

theorem sprintf_name_kind (n k : String) :
    Sprintf "Hello %s %s\n" [some n, some k] = "Hello " ++ n ++ " " ++ k ++ "\n" := by
  simp only [Sprintf, doPrintf, formatS]
  apply String.ext
  simp [String.singleton, String.data_append]

theorem sprintf_name_kind_timestamp (n k : String) (t : Option String) :
    Sprintf "Hello %s %s %s\n" [some n, some k, t]
      = "Hello " ++ n ++ " " ++ k ++ " " ++ formatS t ++ "\n" := by
  simp only [Sprintf, doPrintf]
  apply String.ext
  simp [String.singleton, String.data_append, formatS]

end fmt

namespace hellokubernetes

theorem complete_eq (o : HelloKubernetesOptions) (f : cmdutil.Factory) (cmd : Command)
    (args : List String) (recorder : genericclioptions.Recorder) (ns : String)
    (enforce : Bool) (hrec : o.RecordFlags.ToRecorder = Except.ok recorder)
    (hns : f.Namespace = Except.ok (ns, enforce)) :
    (Complete o f cmd args).1 = none ∧
    (Complete o f cmd args).2.args = args ∧
    (Complete o f cmd args).2.FilenameOptions = o.FilenameOptions ∧
    ∀ obj out, (Complete o f cmd args).2.PrintObj obj out = (none, out ++ helloLine args obj) := by
  simp only [Complete, hrec, hns]
  refine ⟨trivial, trivial, trivial, ?_⟩
  intro obj out
  by_cases h : args = []
  · subst h
    simp [helloLine, printers.NewGoTemplatePrinter, templateNameKind, printers.Field.eval,
      fmt.sprintf_name_kind]
  · have hlen : ¬ args.length = 0 := by
      intro h0
      exact h (List.length_eq_zero.mp h0)
    simp [helloLine, h, hlen, printers.NewGoTemplatePrinter, templateNameKindTimestamp,
      printers.Field.eval, fmt.sprintf_name_kind_timestamp]

theorem complete_fails_or_installs (o : HelloKubernetesOptions) (f : cmdutil.Factory)
    (cmd : Command) (args : List String) (h : (Complete o f cmd args).1 = none) :
    ∃ recorder ns enforce, o.RecordFlags.ToRecorder = Except.ok recorder ∧
      f.Namespace = Except.ok (ns, enforce) := by
  cases hrec : o.RecordFlags.ToRecorder with
  | error e => simp [Complete, hrec] at h
  | ok recorder =>
    cases hns : f.Namespace with
    | error e => simp [Complete, hrec, hns] at h
    | ok p => exact ⟨recorder, p.1, p.2, rfl, rfl⟩

end hellokubernetes

namespace resource

theorem visitContinue_failed {σ : Type} (fn : Info → Option Error → σ → Option Error × σ)
    (es : List Error) (errs : List Error) (s : σ) :
    visitContinue fn (es.map Except.error) errs s = (errs ++ es, s) := by
  induction es generalizing errs with
  | nil => simp [visitContinue]
  | cons e es ih => simp [visitContinue, ih]

theorem resolved_map_ok (infos : List Info) : resolved (infos.map Except.ok) = infos := by
  induction infos with
  | nil => rfl
  | cons i infos ih => simp [resolved, ih]

theorem failed_map_ok (infos : List Info) : failed (infos.map Except.ok) = [] := by
  induction infos with
  | nil => rfl
  | cons i infos ih => simp [failed, ih]

end resource

namespace hellokubernetes

theorem visitContinue_lines (o : HelloKubernetesOptions) (line : Unstructured → String)
    (hP : ∀ obj out, o.PrintObj obj out = (none, out ++ line obj))
    (items : List (Except Error resource.Info)) (errs : List Error) (s : VisitState) :
    (resource.visitContinue (visitFn o) items errs s).1 = errs ++ resource.failed items ∧
    (resource.visitContinue (visitFn o) items errs s).2.count
      = s.count + (resource.resolved items).length ∧
    (resource.visitContinue (visitFn o) items errs s).2.Out
      = s.Out ++ joinLines ((resource.resolved items).map fun i => line i.Object) := by
  induction items generalizing errs s with
  | nil => simp [resource.visitContinue, resource.failed, resource.resolved, joinLines]
  | cons item items ih =>
    cases item with
    | error e =>
      simp only [resource.visitContinue, resource.failed, resource.resolved]
      have h := ih (errs ++ [e]) s
      simpa using h
    | ok info =>
      simp only [resource.visitContinue, resource.failed, resource.resolved, visitFn, hP]
      cases hrec : o.Recorder.Record info.Object with
      | none =>
        have h := ih errs { s with count := s.count + 1, Out := s.Out ++ line info.Object }
        obtain ⟨h1, h2, h3⟩ := h
        refine ⟨h1, ?_, ?_⟩
        · rw [h2]; simp; omega
        · rw [h3]; simp [joinLines, String.append_assoc]
      | some e =>
        have h := ih errs
          { count := s.count + 1, Out := s.Out ++ line info.Object,
            log := s.log ++ [klog.Entry.mk "error recording current command: %v" e] }
        obtain ⟨h1, h2, h3⟩ := h
        refine ⟨h1, ?_, ?_⟩
        · rw [h2]; simp; omega
        · rw [h3]; simp [joinLines, String.append_assoc]

end hellokubernetes

namespace hellokubernetes

theorem run_of_visit (o : HelloKubernetesOptions) (f : cmdutil.Factory) (cmd : Command)
    (out : String) (ns : String) (enforce : Bool) (items : List (Except Error resource.Info))
    (hns : f.Namespace = Except.ok (ns, enforce))
    (hout : outcome f ns enforce o.FilenameOptions o.args = { err := none, items := items }) :
    (RunHelloKubernetes o f cmd out).Out
      = (resource.visitContinue (visitFn o) items [] { count := 0, Out := out, log := [] }).2.Out ∧
    (RunHelloKubernetes o f cmd out).err
      = (match (resource.visitContinue (visitFn o) items []
            { count := 0, Out := out, log := [] }).1 with
         | [] =>
           if (resource.visitContinue (visitFn o) items []
                { count := 0, Out := out, log := [] }).2.count = 0
           then some emptyResult else none
         | e :: es => some (Error.aggregate (e :: es))) := by
  have herr : ((((((((f.NewBuilder).Unstructured).ContinueOnError).NamespaceParam
        ns).DefaultNamespace).FilenameParam enforce
        o.FilenameOptions).ResourceTypeOrNameArgs o.args).Flatten.resolve
      (((((((f.NewBuilder).Unstructured).ContinueOnError).NamespaceParam
        ns).DefaultNamespace).FilenameParam enforce
        o.FilenameOptions).ResourceTypeOrNameArgs o.args).Flatten.request).err = none := by
    have h := congrArg resource.Outcome.err hout
    exact h
  have hitems : ((((((((f.NewBuilder).Unstructured).ContinueOnError).NamespaceParam
        ns).DefaultNamespace).FilenameParam enforce
        o.FilenameOptions).ResourceTypeOrNameArgs o.args).Flatten.resolve
      (((((((f.NewBuilder).Unstructured).ContinueOnError).NamespaceParam
        ns).DefaultNamespace).FilenameParam enforce
        o.FilenameOptions).ResourceTypeOrNameArgs o.args).Flatten.request).items = items := by
    have h := congrArg resource.Outcome.items hout
    exact h
  generalize hv : resource.visitContinue (visitFn o) items []
    { count := 0, Out := out, log := [] } = v
  obtain ⟨errs, s⟩ := v
  unfold RunHelloKubernetes
  simp only [hns]
  simp only [resource.Result.Err, resource.Result.Visit, resource.Builder.Do]
  rw [herr, hitems]
  simp only [resource.Builder.Flatten, resource.Builder.ResourceTypeOrNameArgs,
    resource.Builder.FilenameParam, resource.Builder.DefaultNamespace,
    resource.Builder.NamespaceParam, resource.Builder.ContinueOnError,
    resource.Builder.Unstructured, if_true, hv]
  match errs with
  | [] =>
    by_cases hc : s.count = 0 <;> simp [utilerrors.NewAggregate, hc, emptyResult]
  | e :: es => simp [utilerrors.NewAggregate]

end hellokubernetes

namespace hellokubernetes

theorem run_namespace_error (o : HelloKubernetesOptions) (f : cmdutil.Factory)
    (cmd : Command) (out : String) (e : Error) (hns : f.Namespace = Except.error e) :
    RunHelloKubernetes o f cmd out = { err := some e, Out := out, log := [] } := by
  unfold RunHelloKubernetes
  simp only [hns]

theorem run_builder_error (o : HelloKubernetesOptions) (f : cmdutil.Factory)
    (cmd : Command) (out : String) (ns : String) (enforce : Bool) (e : Error)
    (hns : f.Namespace = Except.ok (ns, enforce))
    (herr : (outcome f ns enforce o.FilenameOptions o.args).err = some e) :
    RunHelloKubernetes o f cmd out = { err := some e, Out := out, log := [] } := by
  have herr1 : ((((((((f.NewBuilder).Unstructured).ContinueOnError).NamespaceParam
        ns).DefaultNamespace).FilenameParam enforce
        o.FilenameOptions).ResourceTypeOrNameArgs o.args).Flatten.resolve
      (((((((f.NewBuilder).Unstructured).ContinueOnError).NamespaceParam
        ns).DefaultNamespace).FilenameParam enforce
        o.FilenameOptions).ResourceTypeOrNameArgs o.args).Flatten.request).err = some e := herr
  unfold RunHelloKubernetes
  simp only [hns]
  simp only [resource.Result.Err, resource.Builder.Do]
  rw [herr1]

theorem visitFn_recorder (o : HelloKubernetesOptions) (r1 r2 : genericclioptions.Recorder)
    (info : resource.Info) (s1 s2 : VisitState) (hc : s1.count = s2.count)
    (ho : s1.Out = s2.Out) :
    (visitFn { o with Recorder := r1 } info none s1).1
      = (visitFn { o with Recorder := r2 } info none s2).1 ∧
    (visitFn { o with Recorder := r1 } info none s1).2.count
      = (visitFn { o with Recorder := r2 } info none s2).2.count ∧
    (visitFn { o with Recorder := r1 } info none s1).2.Out
      = (visitFn { o with Recorder := r2 } info none s2).2.Out := by
  simp only [visitFn]
  cases r1.Record info.Object <;> cases r2.Record info.Object <;> simp [hc, ho]

theorem visitContinue_recorder (o : HelloKubernetesOptions)
    (r1 r2 : genericclioptions.Recorder) (items : List (Except Error resource.Info))
    (errs : List Error) (s1 s2 : VisitState) (hc : s1.count = s2.count)
    (ho : s1.Out = s2.Out) :
    (resource.visitContinue (visitFn { o with Recorder := r1 }) items errs s1).1
      = (resource.visitContinue (visitFn { o with Recorder := r2 }) items errs s2).1 ∧
    (resource.visitContinue (visitFn { o with Recorder := r1 }) items errs s1).2.count
      = (resource.visitContinue (visitFn { o with Recorder := r2 }) items errs s2).2.count ∧
    (resource.visitContinue (visitFn { o with Recorder := r1 }) items errs s1).2.Out
      = (resource.visitContinue (visitFn { o with Recorder := r2 }) items errs s2).2.Out := by
  induction items generalizing errs s1 s2 with
  | nil => simp [resource.visitContinue, hc, ho]
  | cons item items ih =>
    cases item with
    | error e =>
      simp only [resource.visitContinue]
      exact ih (errs ++ [e]) s1 s2 hc ho
    | ok info =>
      obtain ⟨h1, h2, h3⟩ := visitFn_recorder o r1 r2 info s1 s2 hc ho
      simp only [resource.visitContinue]
      generalize visitFn { o with Recorder := r1 } info none s1 = v1 at h1 h2 h3 ⊢
      generalize visitFn { o with Recorder := r2 } info none s2 = v2 at h1 h2 h3 ⊢
      obtain ⟨e1, t1⟩ := v1
      obtain ⟨e2, t2⟩ := v2
      simp only at h1 h2 h3
      subst h1
      cases e1 with
      | none => exact ih errs t1 t2 h2 h3
      | some e => exact ih (errs ++ [e]) t1 t2 h2 h3

end hellokubernetes

namespace hellokubernetes

theorem run_complete (o : HelloKubernetesOptions) (f : cmdutil.Factory) (cmd : Command)
    (args : List String) (out : String) (recorder : genericclioptions.Recorder)
    (ns : String) (enforce : Bool) (items : List (Except Error resource.Info))
    (hrec : o.RecordFlags.ToRecorder = Except.ok recorder)
    (hns : f.Namespace = Except.ok (ns, enforce))
    (hout : outcome f ns enforce o.FilenameOptions args = { err := none, items := items }) :
    (RunHelloKubernetes (Complete o f cmd args).2 f cmd out).Out
      = out ++ joinLines ((resource.resolved items).map fun i => helloLine args i.Object) ∧
    (RunHelloKubernetes (Complete o f cmd args).2 f cmd out).err
      = (match resource.failed items with
         | [] => if (resource.resolved items).length = 0 then some emptyResult else none
         | e :: es => some (Error.aggregate (e :: es))) := by
  obtain ⟨_, hargs, hfo, hP⟩ := complete_eq o f cmd args recorder ns enforce hrec hns
  have hout1 : outcome f ns enforce (Complete o f cmd args).2.FilenameOptions
      (Complete o f cmd args).2.args = { err := none, items := items } := by
    rw [hargs, hfo]; exact hout
  obtain ⟨hO, hE⟩ := run_of_visit (Complete o f cmd args).2 f cmd out ns enforce items hns hout1
  obtain ⟨h1, h2, h3⟩ := visitContinue_lines (Complete o f cmd args).2 (helloLine args) hP
    items [] { count := 0, Out := out, log := [] }
  refine ⟨?_, ?_⟩
  · rw [hO, h3]
  · rw [hE, h1, h2]
    simp only [List.nil_append, Nat.zero_add]

end hellokubernetes

/-! ## The properties -/

namespace hellokubernetes

/-- C1: `Validate` returns the usage error if and only if the positional
arguments are empty and both the filename list and the kustomize directory are
empty; in every other case it returns no error. -/
theorem validate_usage_iff (o : HelloKubernetesOptions) (cmd : Command) (args : List String) :
    (Validate o cmd args
        = some (Error.usage cmd.CommandPath
            "Error: must specify one of -f and -k or type/name as arg\n\n")
      ↔ (args = [] ∧ o.FilenameOptions.Filenames = [] ∧ o.FilenameOptions.Kustomize = "")) ∧
    (Validate o cmd args = none
      ↔ ¬ (args = [] ∧ o.FilenameOptions.Filenames = [] ∧ o.FilenameOptions.Kustomize = "")) := by
  by_cases h : args = [] ∧ o.FilenameOptions.Filenames = [] ∧ o.FilenameOptions.Kustomize = ""
  · obtain ⟨h1, h2, h3⟩ := h
    simp [Validate, cmdutil.IsFilenameSliceEmpty, cmdutil.UsageErrorf, h1, h2, h3]
  · have hv : Validate o cmd args = none := by
      unfold Validate
      rw [if_neg]
      intro hc
      apply h
      obtain ⟨ha, hf⟩ := hc
      simp only [cmdutil.IsFilenameSliceEmpty, Bool.and_eq_true, beq_iff_eq,
        List.length_eq_zero] at hf ha
      exact ⟨ha, hf.1, hf.2⟩
    simp [hv, h]

/-- C2 at the input of `TestExtraArgsFail`: on options with no filenames and no
kustomize directory, `Validate` of the argument "rc" returns `nil`, where the
test asserts an error. -/
theorem validate_rc_is_nil :
    (testdata.options [] "").FilenameOptions.Filenames = [] ∧
    (testdata.options [] "").FilenameOptions.Kustomize = "" ∧
    ¬ ∃ e, Validate (testdata.options [] "") testdata.cmd ["rc"] = some e := by
  refine ⟨rfl, rfl, ?_⟩
  rintro ⟨e, he⟩
  simp [Validate] at he

/-- C3: when `Complete` succeeds, the `PrintObj` it installs writes exactly
"Hello n k" and a newline for every object when `args` is empty, and exactly
"Hello n k t" and a newline for every object with creation timestamp `t` when
`args` is not empty; the choice reads `args` only. -/
theorem complete_installs_template (o : HelloKubernetesOptions) (f : cmdutil.Factory)
    (cmd : Command) (args : List String) (recorder : genericclioptions.Recorder)
    (ns : String) (enforce : Bool)
    (hrec : o.RecordFlags.ToRecorder = Except.ok recorder)
    (hns : f.Namespace = Except.ok (ns, enforce)) :
    (Complete o f cmd args).1 = none ∧
    (args = [] → ∀ (obj : Unstructured) (out : String),
      (Complete o f cmd args).2.PrintObj obj out
        = (none, out ++ ("Hello " ++ obj.name ++ " " ++ obj.kind ++ "\n"))) ∧
    (args ≠ [] → ∀ (obj : Unstructured) (t : String) (out : String),
      obj.creationTimestamp = some t →
      (Complete o f cmd args).2.PrintObj obj out
        = (none, out ++ ("Hello " ++ obj.name ++ " " ++ obj.kind ++ " " ++ t ++ "\n"))) := by
  obtain ⟨h1, _, _, hP⟩ := complete_eq o f cmd args recorder ns enforce hrec hns
  refine ⟨h1, ?_, ?_⟩
  · intro ha obj out
    rw [hP]
    simp [helloLine, ha]
  · intro ha obj t out ht
    rw [hP]
    simp [helloLine, ha, ht, fmt.formatS]

/-- C3 at the flags of `TestHelloKubernetesObject`, without and with a
positional argument. -/
theorem complete_installs_template_witness :
    ((testdata.options ["redis-master-controller.yaml"] "").RecordFlags.ToRecorder
        = Except.ok genericclioptions.NoopRecorder ∧
      (testdata.factory []).Namespace = Except.ok ("test", false)) ∧
    ((Complete (testdata.options ["redis-master-controller.yaml"] "") (testdata.factory [])
        testdata.cmd []).2.PrintObj testdata.redisMaster.Object ""
      = (none, "" ++ ("Hello " ++ "redis-master" ++ " " ++ "ReplicationController" ++ "\n"))) ∧
    ((Complete (testdata.options [] "") (testdata.factory [])
        testdata.cmd ["pod/hello-node"]).2.PrintObj testdata.helloNode.Object ""
      = (none, "" ++ ("Hello " ++ "hello-node" ++ " " ++ "Pod" ++ " "
          ++ "2020-06-30T18:48:12Z" ++ "\n"))) :=
  ⟨⟨rfl, rfl⟩,
   (complete_installs_template (testdata.options ["redis-master-controller.yaml"] "")
      (testdata.factory []) testdata.cmd [] genericclioptions.NoopRecorder "test" false
      rfl rfl).2.1 rfl testdata.redisMaster.Object "",
   (complete_installs_template (testdata.options [] "")
      (testdata.factory []) testdata.cmd ["pod/hello-node"] genericclioptions.NoopRecorder
      "test" false rfl rfl).2.2 (by simp) testdata.helloNode.Object "2020-06-30T18:48:12Z" ""
      rfl⟩

end hellokubernetes

namespace hellokubernetes

/-- C4: with empty positional arguments and a non-empty sequence of records
that all resolve, `RunHelloKubernetes` returns no error and writes exactly one
line "Hello name kind" per record, in resolution order. -/
theorem run_all_resolved (o : HelloKubernetesOptions) (f : cmdutil.Factory) (cmd : Command)
    (out : String) (recorder : genericclioptions.Recorder) (ns : String) (enforce : Bool)
    (infos : List resource.Info)
    (hrec : o.RecordFlags.ToRecorder = Except.ok recorder)
    (hns : f.Namespace = Except.ok (ns, enforce))
    (hout : outcome f ns enforce o.FilenameOptions []
      = { err := none, items := infos.map Except.ok })
    (hne : infos ≠ []) :
    (RunHelloKubernetes (Complete o f cmd []).2 f cmd out).err = none ∧
    (RunHelloKubernetes (Complete o f cmd []).2 f cmd out).Out
      = out ++ joinLines (infos.map fun i =>
          "Hello " ++ i.Object.name ++ " " ++ i.Object.kind ++ "\n") := by
  obtain ⟨hO, hE⟩ := run_complete o f cmd [] out recorder ns enforce
    (infos.map Except.ok) hrec hns hout
  rw [resource.resolved_map_ok] at hO hE
  rw [resource.failed_map_ok] at hE
  refine ⟨?_, ?_⟩
  · rw [hE]
    have hlen : ¬ infos.length = 0 := fun h0 => hne (List.length_eq_zero.mp h0)
    simp [hlen]
  · rw [hO]
    simp [helloLine]

/-- C4 at the two files of `TestHelloKubernetesMultipleObject`. -/
theorem run_all_resolved_witness :
    ((testdata.options ["redis-master-controller.yaml", "frontend-service.yaml"]
        "").RecordFlags.ToRecorder = Except.ok genericclioptions.NoopRecorder ∧
      (testdata.factory [Except.ok testdata.redisMaster,
        Except.ok testdata.frontendService]).Namespace = Except.ok ("test", false) ∧
      outcome (testdata.factory [Except.ok testdata.redisMaster,
          Except.ok testdata.frontendService]) "test" false
          (testdata.options ["redis-master-controller.yaml", "frontend-service.yaml"]
            "").FilenameOptions []
        = { err := none,
            items := [testdata.redisMaster, testdata.frontendService].map Except.ok } ∧
      [testdata.redisMaster, testdata.frontendService] ≠ []) ∧
    ((RunHelloKubernetes
        (Complete (testdata.options ["redis-master-controller.yaml", "frontend-service.yaml"] "")
          (testdata.factory [Except.ok testdata.redisMaster,
            Except.ok testdata.frontendService]) testdata.cmd []).2
        (testdata.factory [Except.ok testdata.redisMaster,
          Except.ok testdata.frontendService]) testdata.cmd "").err = none ∧
     (RunHelloKubernetes
        (Complete (testdata.options ["redis-master-controller.yaml", "frontend-service.yaml"] "")
          (testdata.factory [Except.ok testdata.redisMaster,
            Except.ok testdata.frontendService]) testdata.cmd []).2
        (testdata.factory [Except.ok testdata.redisMaster,
          Except.ok testdata.frontendService]) testdata.cmd "").Out
      = "" ++ joinLines ([testdata.redisMaster, testdata.frontendService].map fun i =>
          "Hello " ++ i.Object.name ++ " " ++ i.Object.kind ++ "\n")) :=
  ⟨⟨rfl, rfl, rfl, by simp⟩,
   run_all_resolved
     (testdata.options ["redis-master-controller.yaml", "frontend-service.yaml"] "")
     (testdata.factory [Except.ok testdata.redisMaster, Except.ok testdata.frontendService])
     testdata.cmd "" genericclioptions.NoopRecorder "test" false
     [testdata.redisMaster, testdata.frontendService] rfl rfl rfl (by simp)⟩

/-- C5: when resolution ends without error and yields no record,
`RunHelloKubernetes` fails with "no objects passed to print" and writes
nothing; and when `Complete` succeeded and `RunHelloKubernetes` returns no
error, the lines of at least one record were written. -/
theorem run_empty_result (o : HelloKubernetesOptions) (f : cmdutil.Factory) (cmd : Command)
    (args : List String) (out : String) :
    (∀ (ns : String) (enforce : Bool), f.Namespace = Except.ok (ns, enforce) →
      outcome f ns enforce o.FilenameOptions o.args = { err := none, items := [] } →
      (RunHelloKubernetes o f cmd out).err = some (Error.msg "no objects passed to print") ∧
      (RunHelloKubernetes o f cmd out).Out = out) ∧
    ((Complete o f cmd args).1 = none →
      (RunHelloKubernetes (Complete o f cmd args).2 f cmd out).err = none →
      ∃ (info : resource.Info) (infos : List resource.Info),
        (RunHelloKubernetes (Complete o f cmd args).2 f cmd out).Out
          = out ++ joinLines ((info :: infos).map fun i => helloLine args i.Object)) := by
  refine ⟨?_, ?_⟩
  · intro ns enforce hns hout
    obtain ⟨hO, hE⟩ := run_of_visit o f cmd out ns enforce [] hns hout
    simp only [resource.visitContinue] at hO hE
    exact ⟨by rw [hE]; simp [emptyResult], hO⟩
  · intro hC hrun
    obtain ⟨recorder, ns, enforce, hrec, hns⟩ := complete_fails_or_installs o f cmd args hC
    obtain ⟨_, hargs, hfo, _⟩ := complete_eq o f cmd args recorder ns enforce hrec hns
    cases herr : (outcome f ns enforce o.FilenameOptions args).err with
    | some e =>
      have herr1 : (outcome f ns enforce (Complete o f cmd args).2.FilenameOptions
          (Complete o f cmd args).2.args).err = some e := by
        rw [hargs, hfo]; exact herr
      rw [run_builder_error (Complete o f cmd args).2 f cmd out ns enforce e hns herr1] at hrun
      simp at hrun
    | none =>
      have hout : outcome f ns enforce o.FilenameOptions args
          = { err := none, items := (outcome f ns enforce o.FilenameOptions args).items } := by
        rw [← herr]
      obtain ⟨hO, hE⟩ := run_complete o f cmd args out recorder ns enforce _ hrec hns hout
      rw [hE] at hrun
      cases hf : resource.failed (outcome f ns enforce o.FilenameOptions args).items with
      | cons e es => rw [hf] at hrun; simp at hrun
      | nil =>
        rw [hf] at hrun
        cases hr : resource.resolved (outcome f ns enforce o.FilenameOptions args).items with
        | nil => rw [hr] at hrun; simp at hrun
        | cons info infos =>
          refine ⟨info, infos, ?_⟩
          rw [hO, hr]

end hellokubernetes

namespace hellokubernetes

/-- C5 at an empty outcome, and at the outcome of one file. -/
theorem run_empty_result_witness :
    (((testdata.factory []).Namespace = Except.ok ("test", false) ∧
      outcome (testdata.factory []) "test" false
          (testdata.options ["empty.yaml"] "").FilenameOptions
          (testdata.options ["empty.yaml"] "").args
        = { err := none, items := [] }) ∧
     (RunHelloKubernetes (testdata.options ["empty.yaml"] "") (testdata.factory [])
        testdata.cmd "").err = some (Error.msg "no objects passed to print") ∧
     (RunHelloKubernetes (testdata.options ["empty.yaml"] "") (testdata.factory [])
        testdata.cmd "").Out = "") ∧
    (((Complete (testdata.options ["redis-master-controller.yaml"] "")
          (testdata.factory [Except.ok testdata.redisMaster]) testdata.cmd []).1 = none ∧
      (RunHelloKubernetes
          (Complete (testdata.options ["redis-master-controller.yaml"] "")
            (testdata.factory [Except.ok testdata.redisMaster]) testdata.cmd []).2
          (testdata.factory [Except.ok testdata.redisMaster]) testdata.cmd "").err = none) ∧
     ∃ (info : resource.Info) (infos : List resource.Info),
       (RunHelloKubernetes
          (Complete (testdata.options ["redis-master-controller.yaml"] "")
            (testdata.factory [Except.ok testdata.redisMaster]) testdata.cmd []).2
          (testdata.factory [Except.ok testdata.redisMaster]) testdata.cmd "").Out
        = "" ++ joinLines ((info :: infos).map fun i => helloLine [] i.Object)) :=
  ⟨⟨⟨rfl, rfl⟩,
    (run_empty_result (testdata.options ["empty.yaml"] "") (testdata.factory [])
      testdata.cmd [] "").1 "test" false rfl rfl⟩,
   ⟨⟨rfl, rfl⟩,
    (run_empty_result (testdata.options ["redis-master-controller.yaml"] "")
      (testdata.factory [Except.ok testdata.redisMaster]) testdata.cmd [] "").2 rfl rfl⟩⟩

/-- C6: the recorder does not affect the run: for any two recorders, whatever
their `Record` returns on each object, `RunHelloKubernetes` returns the same
error and leaves the same output. -/
theorem run_recorder_irrelevant (o : HelloKubernetesOptions) (f : cmdutil.Factory)
    (cmd : Command) (out : String) (r1 r2 : genericclioptions.Recorder) :
    (RunHelloKubernetes { o with Recorder := r1 } f cmd out).err
      = (RunHelloKubernetes { o with Recorder := r2 } f cmd out).err ∧
    (RunHelloKubernetes { o with Recorder := r1 } f cmd out).Out
      = (RunHelloKubernetes { o with Recorder := r2 } f cmd out).Out := by
  cases hns : f.Namespace with
  | error e =>
    rw [run_namespace_error _ f cmd out e hns, run_namespace_error _ f cmd out e hns]
    exact ⟨rfl, rfl⟩
  | ok p =>
    obtain ⟨ns, enforce⟩ := p
    cases herr : (outcome f ns enforce o.FilenameOptions o.args).err with
    | some e =>
      rw [run_builder_error { o with Recorder := r1 } f cmd out ns enforce e hns herr,
        run_builder_error { o with Recorder := r2 } f cmd out ns enforce e hns herr]
      exact ⟨rfl, rfl⟩
    | none =>
      have hout : outcome f ns enforce o.FilenameOptions o.args
          = { err := none, items := (outcome f ns enforce o.FilenameOptions o.args).items } := by
        rw [← herr]
      obtain ⟨hO1, hE1⟩ := run_of_visit { o with Recorder := r1 } f cmd out ns enforce _ hns hout
      obtain ⟨hO2, hE2⟩ := run_of_visit { o with Recorder := r2 } f cmd out ns enforce _ hns hout
      obtain ⟨h1, h2, h3⟩ := visitContinue_recorder o r1 r2
        (outcome f ns enforce o.FilenameOptions o.args).items []
        { count := 0, Out := out, log := [] } { count := 0, Out := out, log := [] } rfl rfl
      refine ⟨?_, ?_⟩
      · rw [hE1, hE2, h1, h2]
      · rw [hO1, hO2, h3]

/-- C7, as the code has it: when no item resolves and at least one item fails
resolution, the error that `RunHelloKubernetes` returns is the aggregate of the
resolution errors, not the error "no objects passed to print". -/
theorem run_all_failed (o : HelloKubernetesOptions) (f : cmdutil.Factory) (cmd : Command)
    (out : String) (ns : String) (enforce : Bool) (e : Error) (es : List Error)
    (hns : f.Namespace = Except.ok (ns, enforce))
    (hout : outcome f ns enforce o.FilenameOptions o.args
      = { err := none, items := (e :: es).map Except.error }) :
    (RunHelloKubernetes o f cmd out).err = some (Error.aggregate (e :: es)) ∧
    (RunHelloKubernetes o f cmd out).err ≠ some (Error.msg "no objects passed to print") := by
  obtain ⟨_, hE⟩ := run_of_visit o f cmd out ns enforce _ hns hout
  rw [resource.visitContinue_failed] at hE
  have h : (RunHelloKubernetes o f cmd out).err = some (Error.aggregate (e :: es)) := by
    rw [hE]; rfl
  refine ⟨h, ?_⟩
  rw [h]
  intro hc
  cases hc

/-- C7 at one file that does not parse, on options that `Validate` accepts. -/
theorem run_all_failed_witness :
    ((testdata.factory [Except.error testdata.parseError]).Namespace
        = Except.ok ("test", false) ∧
      outcome (testdata.factory [Except.error testdata.parseError]) "test" false
          (testdata.options ["malformed.yaml"] "").FilenameOptions
          (testdata.options ["malformed.yaml"] "").args
        = { err := none, items := (testdata.parseError :: []).map Except.error }) ∧
    ((RunHelloKubernetes (testdata.options ["malformed.yaml"] "")
        (testdata.factory [Except.error testdata.parseError]) testdata.cmd "").err
        = some (Error.aggregate (testdata.parseError :: [])) ∧
     (RunHelloKubernetes (testdata.options ["malformed.yaml"] "")
        (testdata.factory [Except.error testdata.parseError]) testdata.cmd "").err
        ≠ some (Error.msg "no objects passed to print")) :=
  ⟨⟨rfl, rfl⟩,
   run_all_failed (testdata.options ["malformed.yaml"] "")
     (testdata.factory [Except.error testdata.parseError])
     testdata.cmd "" "test" false testdata.parseError [] rfl rfl⟩

/-- C7 fails on the command line "-f malformed.yaml": `Complete` and `Validate`
return no error, no item resolves, one item fails, and the error that
`RunHelloKubernetes` returns, which is the error of the command, is not "no
objects passed to print". -/
theorem run_parse_error_is_not_empty_result :
    (Complete (testdata.options ["malformed.yaml"] "")
        (testdata.factory [Except.error testdata.parseError]) testdata.cmd []).1 = none ∧
    Validate (Complete (testdata.options ["malformed.yaml"] "")
        (testdata.factory [Except.error testdata.parseError]) testdata.cmd []).2
        testdata.cmd [] = none ∧
    resource.resolved [Except.error testdata.parseError] = [] ∧
    resource.failed [Except.error testdata.parseError] = [testdata.parseError] ∧
    (RunHelloKubernetes
        (Complete (testdata.options ["malformed.yaml"] "")
          (testdata.factory [Except.error testdata.parseError]) testdata.cmd []).2
        (testdata.factory [Except.error testdata.parseError]) testdata.cmd "").err
      = some (Error.aggregate [Error.msg "error parsing malformed.yaml"]) ∧
    (RunHelloKubernetes
        (Complete (testdata.options ["malformed.yaml"] "")
          (testdata.factory [Except.error testdata.parseError]) testdata.cmd []).2
        (testdata.factory [Except.error testdata.parseError]) testdata.cmd "").err
      ≠ some (Error.msg "no objects passed to print") ∧
    (Run (testdata.options ["malformed.yaml"] "")
        (testdata.factory [Except.error testdata.parseError]) testdata.cmd [] "").err
      ≠ some (Error.msg "no objects passed to print") := by
  refine ⟨rfl, rfl, rfl, rfl, rfl, ?_, ?_⟩
  · intro h
    have h1 : some (Error.aggregate [Error.msg "error parsing malformed.yaml"])
        = some (Error.msg "no objects passed to print") := h
    cases h1
  · intro h
    have h1 : some (Error.aggregate [Error.msg "error parsing malformed.yaml"])
        = some (Error.msg "no objects passed to print") := h
    cases h1

end hellokubernetes

namespace hellokubernetes

/-- C8, as the code has it: after a successful `Complete`, `RunHelloKubernetes`
returns no error exactly when at least one record resolved and no item of the
outcome failed resolution; so when records resolve and are printed while other
items of the batch failed resolution, the run returns an error. -/
theorem run_error_iff (o : HelloKubernetesOptions) (f : cmdutil.Factory) (cmd : Command)
    (args : List String) (out : String) (recorder : genericclioptions.Recorder)
    (ns : String) (enforce : Bool) (items : List (Except Error resource.Info))
    (hrec : o.RecordFlags.ToRecorder = Except.ok recorder)
    (hns : f.Namespace = Except.ok (ns, enforce))
    (hout : outcome f ns enforce o.FilenameOptions args = { err := none, items := items }) :
    ((RunHelloKubernetes (Complete o f cmd args).2 f cmd out).err = none
      ↔ resource.failed items = [] ∧ resource.resolved items ≠ []) ∧
    (resource.failed items ≠ [] →
      (RunHelloKubernetes (Complete o f cmd args).2 f cmd out).err ≠ none) := by
  obtain ⟨_, hE⟩ := run_complete o f cmd args out recorder ns enforce items hrec hns hout
  rw [hE]
  cases hf : resource.failed items with
  | cons e es => simp
  | nil =>
    cases hr : resource.resolved items with
    | nil => simp [emptyResult]
    | cons i is => simp

/-- C8 on the command line "-f redis-master-controller.yaml -f malformed.yaml". -/
theorem run_error_iff_witness :
    ((testdata.options ["redis-master-controller.yaml", "malformed.yaml"]
        "").RecordFlags.ToRecorder = Except.ok genericclioptions.NoopRecorder ∧
      (testdata.factory [Except.ok testdata.redisMaster,
        Except.error testdata.parseError]).Namespace = Except.ok ("test", false) ∧
      outcome (testdata.factory [Except.ok testdata.redisMaster,
          Except.error testdata.parseError]) "test" false
          (testdata.options ["redis-master-controller.yaml", "malformed.yaml"]
            "").FilenameOptions []
        = { err := none,
            items := [Except.ok testdata.redisMaster, Except.error testdata.parseError] } ∧
      resource.failed [Except.ok testdata.redisMaster, Except.error testdata.parseError]
        ≠ []) ∧
    (RunHelloKubernetes
        (Complete (testdata.options ["redis-master-controller.yaml", "malformed.yaml"] "")
          (testdata.factory [Except.ok testdata.redisMaster, Except.error testdata.parseError])
          testdata.cmd []).2
        (testdata.factory [Except.ok testdata.redisMaster, Except.error testdata.parseError])
        testdata.cmd "").err ≠ none :=
  ⟨⟨rfl, rfl, rfl, by simp [resource.failed]⟩,
   (run_error_iff (testdata.options ["redis-master-controller.yaml", "malformed.yaml"] "")
      (testdata.factory [Except.ok testdata.redisMaster, Except.error testdata.parseError])
      testdata.cmd [] "" genericclioptions.NoopRecorder "test" false
      [Except.ok testdata.redisMaster, Except.error testdata.parseError] rfl rfl rfl).2
      (by simp [resource.failed])⟩

/-- C8 fails on the command line "-f redis-master-controller.yaml -f
malformed.yaml": `Complete` and `Validate` return no error, the record of the
first file resolves and its line is written, and the run, and so the command,
still returns an error. -/
theorem run_partial_failure_returns_error :
    (Complete (testdata.options ["redis-master-controller.yaml", "malformed.yaml"] "")
        (testdata.factory [Except.ok testdata.redisMaster, Except.error testdata.parseError])
        testdata.cmd []).1 = none ∧
    Validate
        (Complete (testdata.options ["redis-master-controller.yaml", "malformed.yaml"] "")
          (testdata.factory [Except.ok testdata.redisMaster, Except.error testdata.parseError])
          testdata.cmd []).2 testdata.cmd [] = none ∧
    resource.resolved [Except.ok testdata.redisMaster, Except.error testdata.parseError]
      = [testdata.redisMaster] ∧
    (RunHelloKubernetes
        (Complete (testdata.options ["redis-master-controller.yaml", "malformed.yaml"] "")
          (testdata.factory [Except.ok testdata.redisMaster, Except.error testdata.parseError])
          testdata.cmd []).2
        (testdata.factory [Except.ok testdata.redisMaster, Except.error testdata.parseError])
        testdata.cmd "").Out = "Hello redis-master ReplicationController\n" ∧
    (RunHelloKubernetes
        (Complete (testdata.options ["redis-master-controller.yaml", "malformed.yaml"] "")
          (testdata.factory [Except.ok testdata.redisMaster, Except.error testdata.parseError])
          testdata.cmd []).2
        (testdata.factory [Except.ok testdata.redisMaster, Except.error testdata.parseError])
        testdata.cmd "").err ≠ none ∧
    (Run (testdata.options ["redis-master-controller.yaml", "malformed.yaml"] "")
        (testdata.factory [Except.ok testdata.redisMaster, Except.error testdata.parseError])
        testdata.cmd [] "").err ≠ none := by
  refine ⟨rfl, rfl, rfl, by decide, ?_, ?_⟩
  · intro h
    have h1 : some (Error.aggregate [Error.msg "error parsing malformed.yaml"])
        = (none : Option Error) := h
    cases h1
  · intro h
    have h1 : some (Error.aggregate [Error.msg "error parsing malformed.yaml"])
        = (none : Option Error) := h
    cases h1

/-- C10: after a successful `Complete`, whatever mix of resolved records and
item errors the outcome holds, the output of `RunHelloKubernetes` is what was
there before followed by the lines of all resolved records, in resolution
order, those after a failed item included. -/
theorem run_writes_resolved (o : HelloKubernetesOptions) (f : cmdutil.Factory)
    (cmd : Command) (args : List String) (out : String)
    (recorder : genericclioptions.Recorder) (ns : String) (enforce : Bool)
    (items : List (Except Error resource.Info))
    (hrec : o.RecordFlags.ToRecorder = Except.ok recorder)
    (hns : f.Namespace = Except.ok (ns, enforce))
    (hout : outcome f ns enforce o.FilenameOptions args = { err := none, items := items }) :
    (RunHelloKubernetes (Complete o f cmd args).2 f cmd out).Out
      = out ++ joinLines ((resource.resolved items).map fun i => helloLine args i.Object) :=
  (run_complete o f cmd args out recorder ns enforce items hrec hns hout).1

/-- C10 at a batch whose second item fails: both records are written. -/
theorem run_writes_resolved_witness :
    ((testdata.options ["a.yaml", "malformed.yaml", "b.yaml"] "").RecordFlags.ToRecorder
        = Except.ok genericclioptions.NoopRecorder ∧
      (testdata.factory [Except.ok testdata.redisMaster, Except.error testdata.parseError,
        Except.ok testdata.frontendService]).Namespace = Except.ok ("test", false) ∧
      outcome (testdata.factory [Except.ok testdata.redisMaster,
          Except.error testdata.parseError, Except.ok testdata.frontendService]) "test" false
          (testdata.options ["a.yaml", "malformed.yaml", "b.yaml"] "").FilenameOptions []
        = { err := none,
            items := [Except.ok testdata.redisMaster, Except.error testdata.parseError,
              Except.ok testdata.frontendService] }) ∧
    (RunHelloKubernetes
        (Complete (testdata.options ["a.yaml", "malformed.yaml", "b.yaml"] "")
          (testdata.factory [Except.ok testdata.redisMaster, Except.error testdata.parseError,
            Except.ok testdata.frontendService]) testdata.cmd []).2
        (testdata.factory [Except.ok testdata.redisMaster, Except.error testdata.parseError,
          Except.ok testdata.frontendService]) testdata.cmd "").Out
      = "" ++ joinLines ((resource.resolved [Except.ok testdata.redisMaster,
          Except.error testdata.parseError, Except.ok testdata.frontendService]).map
            fun i => helloLine [] i.Object) :=
  ⟨⟨rfl, rfl, rfl⟩,
   run_writes_resolved (testdata.options ["a.yaml", "malformed.yaml", "b.yaml"] "")
     (testdata.factory [Except.ok testdata.redisMaster, Except.error testdata.parseError,
       Except.ok testdata.frontendService]) testdata.cmd [] "" genericclioptions.NoopRecorder
     "test" false
     [Except.ok testdata.redisMaster, Except.error testdata.parseError,
       Except.ok testdata.frontendService] rfl rfl rfl⟩

end hellokubernetes

namespace helloworld

/-- C9, as the code has it: when the recorder construction, the printer
construction and the namespace lookup succeed, then for every argument list
the command reaches `RunHelloWorld`, which writes the line "Hello world" once
and returns no error; `RunHelloWorld` itself does so on every options value.
When the recorder construction fails, or the printer construction fails after
it, or the namespace lookup fails after both, `Complete` returns that error
and the command ends with it before `RunHelloWorld`, nothing written. -/
theorem run_prints_hello_world (o : HelloWorldOptions) (f : cmdutil.Factory) (cmd : Command)
    (args : List String) (stdout : String) :
    (∀ (recorder : genericclioptions.Recorder) (printer : printers.ResourcePrinter)
        (ns : String) (enforce : Bool),
      o.RecordFlags.ToRecorder = Except.ok recorder →
      o.PrintFlags.ToPrinter = Except.ok printer →
      f.Namespace = Except.ok (ns, enforce) →
      Run o f cmd args stdout = (none, stdout ++ "Hello world\n")) ∧
    (∀ (o1 : HelloWorldOptions) (s : String),
      RunHelloWorld o1 s = (none, s ++ "Hello world\n")) ∧
    (∀ (e : Error), o.RecordFlags.ToRecorder = Except.error e →
      (Complete o f cmd args).1 = some e ∧ Run o f cmd args stdout = (some e, stdout)) ∧
    (∀ (recorder : genericclioptions.Recorder) (e : Error),
      o.RecordFlags.ToRecorder = Except.ok recorder →
      o.PrintFlags.ToPrinter = Except.error e →
      (Complete o f cmd args).1 = some e ∧ Run o f cmd args stdout = (some e, stdout)) ∧
    (∀ (recorder : genericclioptions.Recorder) (printer : printers.ResourcePrinter)
        (e : Error),
      o.RecordFlags.ToRecorder = Except.ok recorder →
      o.PrintFlags.ToPrinter = Except.ok printer →
      f.Namespace = Except.error e →
      (Complete o f cmd args).1 = some e ∧ Run o f cmd args stdout = (some e, stdout)) := by
  have hline : ∀ s : String, fmt.Println "Hello world" s = s ++ "Hello world\n" := by
    intro s
    simp only [fmt.Println, String.append_assoc]
    rfl
  refine ⟨?_, ?_, ?_, ?_, ?_⟩
  · intro recorder printer ns enforce hrec hprinter hns
    simp only [Run, Complete, hrec, hprinter, hns, Validate, RunHelloWorld, hline,
      cmdutil.CheckErr]
  · intro o1 s
    simp only [RunHelloWorld, hline]
  · intro e hrec
    simp only [Run, Complete, hrec, cmdutil.CheckErr, and_self]
  · intro recorder e hrec hprinter
    simp only [Run, Complete, hrec, hprinter, cmdutil.CheckErr, and_self]
  · intro recorder printer e hrec hprinter hns
    simp only [Run, Complete, hrec, hprinter, hns, cmdutil.CheckErr, and_self]

/-- C9 at options whose collaborators all succeed, and at a failing recorder
construction, printer construction and namespace lookup. -/
theorem run_prints_hello_world_witness :
    (((testdata.worldOptions (Except.ok genericclioptions.NoopRecorder)
          (Except.ok testdata.namePrinter)).RecordFlags.ToRecorder
          = Except.ok genericclioptions.NoopRecorder ∧
        (testdata.worldOptions (Except.ok genericclioptions.NoopRecorder)
          (Except.ok testdata.namePrinter)).PrintFlags.ToPrinter
          = Except.ok testdata.namePrinter ∧
        (testdata.factory []).Namespace = Except.ok ("test", false)) ∧
      Run (testdata.worldOptions (Except.ok genericclioptions.NoopRecorder)
          (Except.ok testdata.namePrinter)) (testdata.factory []) testdata.cmd [] ""
        = (none, "" ++ "Hello world\n")) ∧
    Run (testdata.worldOptions (Except.error testdata.notFound)
        (Except.ok testdata.namePrinter)) (testdata.factory []) testdata.cmd [] ""
      = (some testdata.notFound, "") ∧
    Run (testdata.worldOptions (Except.ok genericclioptions.NoopRecorder)
        (Except.error testdata.notFound)) (testdata.factory []) testdata.cmd ["x"] ""
      = (some testdata.notFound, "") ∧
    Run (testdata.worldOptions (Except.ok genericclioptions.NoopRecorder)
        (Except.ok testdata.namePrinter)) testdata.brokenFactory testdata.cmd [] ""
      = (some testdata.notFound, "") :=
  ⟨⟨⟨rfl, rfl, rfl⟩,
    (run_prints_hello_world
      (testdata.worldOptions (Except.ok genericclioptions.NoopRecorder)
        (Except.ok testdata.namePrinter))
      (testdata.factory []) testdata.cmd [] "").1 genericclioptions.NoopRecorder
      testdata.namePrinter "test" false rfl rfl rfl⟩,
   ((run_prints_hello_world
      (testdata.worldOptions (Except.error testdata.notFound) (Except.ok testdata.namePrinter))
      (testdata.factory []) testdata.cmd [] "").2.2.1 testdata.notFound rfl).2,
   ((run_prints_hello_world
      (testdata.worldOptions (Except.ok genericclioptions.NoopRecorder)
        (Except.error testdata.notFound))
      (testdata.factory []) testdata.cmd ["x"] "").2.2.2.1 genericclioptions.NoopRecorder
      testdata.notFound rfl rfl).2,
   ((run_prints_hello_world
      (testdata.worldOptions (Except.ok genericclioptions.NoopRecorder)
        (Except.ok testdata.namePrinter))
      testdata.brokenFactory testdata.cmd [] "").2.2.2.2 genericclioptions.NoopRecorder
      testdata.namePrinter testdata.notFound rfl rfl rfl).2⟩

/-- C9 fails when the printer construction fails (an output format that no
printer supports): `Complete` returns the error, the command ends before
`RunHelloWorld`, and nothing is written. -/
theorem run_printer_error_prints_nothing :
    Run (testdata.worldOptions (Except.ok genericclioptions.NoopRecorder)
        (Except.error (Error.msg "unable to match a printer suitable for the output format")))
        (testdata.factory []) testdata.cmd [] ""
      = (some (Error.msg "unable to match a printer suitable for the output format"), "") := by
  rfl

end helloworld
